import Mathlib

/-!
Shallow embedding of the 3D-models-Exhibition-Areas repository (TypeScript)
for checking its natural-language specification.

Each definition is translated from a named source location:
* `src/unnamed/part_002` — the Google-Sheets booth feed
  (`normalizeStatus`, `getStringValue`, `getColorForStatus`,
  `fetchBoothInfoFromSheets`; the canonical multi-sheet variant,
  lines 193-350).
* `src/src/hooks/useAreaData.ts` — the area-data hook
  (`loadAreaDataFromSheets`, content-hash gating).
* `src/src/utils/meshUtils.ts` — `MeshManager` booth-to-mesh matching.
* `src/src/utils/materialUtils.ts` — `MaterialManager` status colors and
  hover save/restore.
* `src/src/utils/cameraUtils.ts` — `CameraAnimator` eased interpolation.
* `src/unnamed/part_003` — the `onClick` info-callout toggle
  (lines 2062-2096) and `showBoothInfoCallout` (lines 1826-1847).

JavaScript strings are modelled as Lean `String` with explicit helpers
(`jsToLower`, `jsTrim`, ...) written over the character list so that all
evaluations are kernel-reducible; JavaScript numbers are modelled as `ℚ`.
-/

/-! ## JavaScript string helpers -/

/-- Model of `String.prototype.toLowerCase` on the ASCII data the feed
carries: lowercases each character. -/
def jsToLower (s : String) : String :=
  ⟨s.data.map Char.toLower⟩

/-- Model of `String.prototype.toUpperCase` on ASCII data. -/
def jsToUpper (s : String) : String :=
  ⟨s.data.map Char.toUpper⟩

/-- Model of `String.prototype.trim`: drops leading and trailing
whitespace. -/
def jsTrim (s : String) : String :=
  ⟨((s.data.dropWhile Char.isWhitespace).reverse.dropWhile
      Char.isWhitespace).reverse⟩

/-- Model of `String.prototype.startsWith`. -/
def jsStartsWith (s pre : String) : Bool :=
  pre.data.isPrefixOf s.data

/-- Helper for `jsIncludes`: `needle` occurs as a contiguous sublist of
`hay`. -/
def listIncludes (needle hay : List Char) : Bool :=
  (List.range (hay.length + 1)).any fun i => needle.isPrefixOf (hay.drop i)

/-- Model of `String.prototype.includes`: substring containment. -/
def jsIncludes (s needle : String) : Bool :=
  listIncludes needle.data s.data

/-- Helper for `jsReplaceFirstChar`. -/
def replaceFirstCharAux (c : Char) (r : List Char) : List Char → List Char
  | [] => []
  | x :: xs => if x = c then r ++ xs else x :: replaceFirstCharAux c r xs

/-- Model of `String.prototype.replace(c, r)` with a one-character search
string: JavaScript `replace` with a string pattern replaces only the first
occurrence. -/
def jsReplaceFirstChar (s : String) (c : Char) (r : String) : String :=
  ⟨replaceFirstCharAux c r.data s.data⟩

/-- Digits-to-number accumulator used by the `parseFloat` model. -/
def digitsToNat (ds : List Char) : Nat :=
  ds.foldl (fun a c => a * 10 + (c.toNat - 48)) 0

/-- Model of `parseFloat` on the plain decimal numerals the sheet carries:
optional sign, integer digits, optional fraction digits; `none` models
`NaN` (no parsable number). Exponents and special values do not occur in
the feed and are not modelled. -/
def jsParseFloat (s : String) : Option ℚ :=
  let cs := s.data.dropWhile Char.isWhitespace
  let signAndRest : ℚ × List Char :=
    match cs with
    | '-' :: r => (-1, r)
    | '+' :: r => (1, r)
    | _ => (1, cs)
  let intDigits := signAndRest.2.takeWhile Char.isDigit
  let afterInt := signAndRest.2.drop intDigits.length
  let fracDigits :=
    match afterInt with
    | '.' :: r2 => r2.takeWhile Char.isDigit
    | _ => []
  if intDigits.isEmpty ∧ fracDigits.isEmpty then none
  else
    some (signAndRest.1 *
      ((digitsToNat intDigits : ℚ) +
        (digitsToNat fracDigits : ℚ) / (10 ^ fracDigits.length)))

/-- Model of `parseFloat(x) || 0`: `NaN` (and `0` itself) collapse to `0`. -/
def parseFloatOrZero (s : String) : ℚ :=
  match jsParseFloat s with
  | none => 0
  | some q => q

/-! ## Data model (`src/src/types/booth.ts`) -/

/-- `BoothStatus` from `src/src/types/booth.ts`:
`'sold' | 'reserved' | 'available' | 'nil'`. -/
inductive BoothStatus where
  | sold
  | reserved
  | available
  | nil
deriving DecidableEq, Repr

/-- `Booth` from `src/src/types/booth.ts`. `height` holds the sheet's
`lenght` column (the upstream API's spelling). -/
structure Booth where
  id : String
  name : String
  width : ℚ
  height : ℚ
  area : ℚ
  status : BoothStatus
  color : String
deriving DecidableEq, Repr

/-! ## Booth feed (`src/unnamed/part_002`, canonical variant lines 193-350) -/

/-- `normalizeStatus` (part_002 lines 236-248): lowercase the cell, map
`sold`/`reserved` to themselves, everything else (the `available` case and
the `default` case of the switch) to `available`. -/
def normalizeStatus (sheetStatus : String) : BoothStatus :=
  let status := jsToLower sheetStatus
  if status = "sold" then BoothStatus.sold
  else if status = "reserved" then BoothStatus.reserved
  else BoothStatus.available

/-- `getStringValue` (part_002 lines 250-256): `null`/`undefined` (modelled
by `none`) and the literal string `"undefined"` become the fallback `""`;
any other value is stringified and trimmed. -/
def getStringValue (value : Option String) : String :=
  match value with
  | none => ""
  | some v => if v = "undefined" then "" else jsTrim v

/-- `getColorForStatus` (part_002 lines 258-272). -/
def getColorForStatus (status : BoothStatus) : String :=
  match status with
  | BoothStatus.sold => "#66aaff"
  | BoothStatus.reserved => "#ffaa66"
  | BoothStatus.available => "#cccccc"
  | BoothStatus.nil => "#ff69b4"

/-- One raw row of the sheet-JSON feed, as consumed by
`fetchBoothInfoFromSheets` (fields `id`, `status`, `name`, `width`,
`lenght`, `area`; `none` models an absent/null cell). -/
structure SheetRow where
  id : Option String
  status : Option String
  name : Option String
  width : Option String
  lenght : Option String
  area : Option String
deriving DecidableEq, Repr

/-- The per-row body of the `jsonData.forEach` in
`fetchBoothInfoFromSheets` (part_002 lines 300-338): extract the id (skip
the row when it is empty), default an empty status cell to `'Available'`,
re-check for an empty status, and build the `Booth` with its derived
color. -/
def processRow (row : SheetRow) : Option Booth :=
  let id := getStringValue row.id
  if id ≠ "" then
    let status :=
      let s := getStringValue row.status
      if s = "" then "Available" else s
    let name := getStringValue row.name
    let width := parseFloatOrZero (getStringValue row.width)
    let height := parseFloatOrZero (getStringValue row.lenght)
    let area := parseFloatOrZero (getStringValue row.area)
    let isEmptyStatus :=
      status = "" ∨ status = "undefined" ∨ jsTrim status = ""
    let normalizedStatus :=
      if isEmptyStatus then BoothStatus.nil else normalizeStatus status
    some { id := id, name := name, width := width, height := height,
           area := area, status := normalizedStatus,
           color := getColorForStatus normalizedStatus }
  else none

/-- `Map.set` on the booth map, modelled as an insertion-ordered
association list: an existing key is overwritten in place, a new key is
appended. -/
def mapSet (m : List (String × Booth)) (k : String) (v : Booth) :
    List (String × Booth) :=
  if m.any (fun p => p.1 = k) then
    m.map (fun p => if p.1 = k then (k, v) else p)
  else m ++ [(k, v)]

/-- The row-processing loop of `fetchBoothInfoFromSheets`: fold the rows
into the booth map, skipping rows without an id. -/
def processRows (rows : List SheetRow) : List (String × Booth) :=
  rows.foldl
    (fun m row =>
      match processRow row with
      | some b => mapSet m b.id b
      | none => m)
    []

/-- Outcome of the single HTTP request `fetchBoothInfoFromSheets` issues:
the `fetch` promise rejects, the response is not ok, the body fails to
parse as JSON, or a row array is obtained. -/
inductive FetchOutcome where
  | networkError (message : String)
  | httpNotOk (statusText : String)
  | parseError (message : String)
  | rowsOk (rows : List SheetRow)
deriving DecidableEq, Repr

/-- Whether the request outcome is one of the three failure modes. -/
def FetchOutcome.isFailure : FetchOutcome → Bool
  | FetchOutcome.networkError _ => true
  | FetchOutcome.httpNotOk _ => true
  | FetchOutcome.parseError _ => true
  | FetchOutcome.rowsOk _ => false

/-- The `try` block of `fetchBoothInfoFromSheets` (part_002 lines
279-343): a rejected `fetch` or `response.json()` propagates as an error,
a non-ok response throws `Failed to fetch sheet data: ...`, and a row
array is folded into the booth map. -/
def fetchTryBlock : FetchOutcome → Except String (List (String × Booth))
  | FetchOutcome.networkError msg => Except.error msg
  | FetchOutcome.httpNotOk statusText =>
      Except.error ("Failed to fetch sheet data: " ++ statusText)
  | FetchOutcome.parseError msg => Except.error msg
  | FetchOutcome.rowsOk rows => Except.ok (processRows rows)

/-- `fetchBoothInfoFromSheets` (part_002 lines 276-350): the whole
function, `try` block plus `catch`. The `catch` clause logs and returns
an empty map, so the promise always resolves (`Except.ok`). -/
def fetchBoothInfoFromSheets (o : FetchOutcome) :
    Except String (List (String × Booth)) :=
  match fetchTryBlock o with
  | Except.ok m => Except.ok m
  | Except.error _e => Except.ok []

/-- One call of `fetchBoothInfoFromSheets` against a stream of pending
response outcomes: the function issues exactly one request, so it consumes
exactly the first outcome and ignores the rest (there is no retry path in
the source). An empty stream never arises for an issued request. -/
def fetchBoothInfoFromStream (responses : List FetchOutcome) :
    Except String (List (String × Booth)) :=
  match responses with
  | [] => Except.ok []
  | o :: _rest => fetchBoothInfoFromSheets o

/-! ## Mesh-material colorer (`src/src/utils/materialUtils.ts`) -/

namespace MaterialManager

/-- `MaterialManager.getStatusColor` (materialUtils.ts lines 36-48):
`status?.toLowerCase()` switched over the four statuses; `nil` shares the
`default` arm. -/
def getStatusColor (status : String) : Nat :=
  let s := jsToLower status
  if s = "sold" then 0x659C3E
  else if s = "reserved" then 0x659C3E
  else if s = "available" then 0x0430A9
  else 0x0430A9

end MaterialManager

/-! ## THREE.Color model (for the hover save/restore discipline) -/

/-- A THREE.js color: three float channels in the source, modelled as
rationals. -/
structure Color where
  r : ℚ
  g : ℚ
  b : ℚ
deriving DecidableEq, Repr

/-- `THREE.Color.setHex`: split a 24-bit hex into channels scaled to the
unit interval. -/
def Color.setHex (hex : Nat) : Color :=
  ⟨((hex / 65536) % 256 : Nat) / 255,
   ((hex / 256) % 256 : Nat) / 255,
   ((hex % 256 : Nat) : ℚ) / 255⟩

/-- Clamp to the unit interval, as `THREE.Color.getHex` does per channel. -/
def clamp01 (q : ℚ) : ℚ := max 0 (min 1 q)

/-- `Math.round` for nonnegative values, as used by `getHex`. -/
def qRound (q : ℚ) : ℤ := ⌊q + 1 / 2⌋

/-- One channel of `THREE.Color.getHex`: clamp, scale to 255, round. -/
def hexChannel (q : ℚ) : Nat := (qRound (clamp01 q * 255)).toNat

/-- `THREE.Color.getHex`: pack the three rounded channels into 24 bits. -/
def Color.getHex (c : Color) : Nat :=
  hexChannel c.r * 65536 + hexChannel c.g * 256 + hexChannel c.b

/-- `THREE.Color.multiplyScalar`: channel-wise scaling, no clamping. -/
def Color.multiplyScalar (c : Color) (s : ℚ) : Color :=
  ⟨c.r * s, c.g * s, c.b * s⟩

/-- State of a mesh material as the hover code touches it: base color,
emissive color, emissive intensity, and whether the material has a `color`
property at all (the `'color' in material` guard). -/
structure Material where
  color : Color
  emissive : Color
  emissiveIntensity : ℚ
  hasColor : Bool
deriving DecidableEq, Repr

/-- State of a mesh as the hover code touches it: its (non-array)
material and the `userData._hoverColor` slot (`none` models
`undefined`). Cloning the material (`material.clone()`) copies all values,
so it is the identity on this value-level state. -/
structure MeshState where
  material : Material
  hoverColor : Option Nat
deriving DecidableEq, Repr

namespace MaterialManager

/-- `MaterialManager.applyHoverEffect` (materialUtils.ts lines 117-142):
when the material has a color property, record the current color hex in
`userData._hoverColor`, clone the material, set the emissive color to the
glow color at the given intensity, and brighten the base color to
1.5 times the glow color. -/
def applyHoverEffect (mesh : MeshState) (glowColor : Nat) (intensity : ℚ) :
    MeshState :=
  if mesh.material.hasColor then
    let saved := mesh.material.color.getHex
    { mesh with
      hoverColor := some saved,
      material :=
        { mesh.material with
          emissive := Color.setHex glowColor,
          emissiveIntensity := intensity,
          color := (Color.setHex glowColor).multiplyScalar (3 / 2) } }
  else mesh

/-- `MaterialManager.removeHoverEffect` (materialUtils.ts lines 147-156):
when `userData._hoverColor` is defined, restore the base color from it and
zero the emissive color and intensity. -/
def removeHoverEffect (mesh : MeshState) : MeshState :=
  match mesh.hoverColor with
  | some hc =>
    { mesh with
      material :=
        { mesh.material with
          color := Color.setHex hc,
          emissive := Color.setHex 0,
          emissiveIntensity := 0 } }
  | none => mesh

end MaterialManager

/-! ## Mesh mapper (`src/src/utils/meshUtils.ts`) -/

/-- A mesh in the loaded scene, identified by its object identity (`uid`)
and its `name`; the scene is the list of meshes in traversal order. -/
structure Mesh where
  uid : Nat
  name : String
deriving DecidableEq, Repr

namespace MeshManager

/-- `MeshManager.generateMeshNamePatterns` (meshUtils.ts lines 11-22): the
ordered list of exact-name candidates for a booth id. -/
def generateMeshNamePatterns (boothId : String) : List String :=
  ["BOOTHLAYER_curve_." ++ boothId,
   "BOOTHLAYER_curve_" ++ boothId,
   boothId,
   "Booth_" ++ boothId,
   "booth_" ++ boothId,
   jsReplaceFirstChar boothId '-' "_",
   jsToLower boothId,
   jsToUpper boothId]

/-- `MeshManager.findMeshByName` (meshUtils.ts lines 27-35): traverse the
scene and keep the last mesh whose name equals `nameToFind`. -/
def findMeshByName (scene : List Mesh) (nameToFind : String) : Option Mesh :=
  scene.foldl (fun acc o => if o.name = nameToFind then some o else acc) none

/-- `MeshManager.findMeshByPartialMatch` (meshUtils.ts lines 40-52):
traverse the scene and keep the last mesh whose name contains the booth id,
the id with its first `-` replaced by `_`, or the id with its first `-`
removed. -/
def findMeshByPartialMatch (scene : List Mesh) (boothId : String) :
    Option Mesh :=
  scene.foldl
    (fun acc o =>
      if jsIncludes o.name boothId ∨
         jsIncludes o.name (jsReplaceFirstChar boothId '-' "_") ∨
         jsIncludes o.name (jsReplaceFirstChar boothId '-' "") then
        some o
      else acc)
    none

/-- The pattern loop of `MeshManager.mapBoothMeshes` (meshUtils.ts lines
81-87): try the exact-name candidates in order, first hit wins. -/
def findFirstExact (scene : List Mesh) : List String → Option Mesh
  | [] => none
  | p :: ps =>
    match findMeshByName scene p with
    | some m => some m
    | none => findFirstExact scene ps

/-- The per-booth body of `MeshManager.mapBoothMeshes` (meshUtils.ts lines
73-104): exact patterns first, then the substring fallback. -/
def findMeshForBooth (scene : List Mesh) (boothId : String) : Option Mesh :=
  match findFirstExact scene (generateMeshNamePatterns boothId) with
  | some m => some m
  | none => findMeshByPartialMatch scene boothId

/-- `Map.set` keyed by mesh identity, as `meshMap.set(foundMesh, booth)`
does. -/
def meshMapSet (m : List (Mesh × Booth)) (k : Mesh) (v : Booth) :
    List (Mesh × Booth) :=
  if m.any (fun p => p.1 = k) then
    m.map (fun p => if p.1 = k then (k, v) else p)
  else m ++ [(k, v)]

/-- `MeshManager.mapBoothMeshes` (meshUtils.ts lines 57-104): starting
from a cleared map, bind each booth to the mesh its patterns select, when
one exists. -/
def mapBoothMeshes (scene : List Mesh) (booths : List Booth) :
    List (Mesh × Booth) :=
  booths.foldl
    (fun mm booth =>
      match findMeshForBooth scene booth.id with
      | some m => meshMapSet mm m booth
      | none => mm)
    []

end MeshManager

/-! ## Area data hook (`src/src/hooks/useAreaData.ts`, lines 5-147) -/

/-- `AreaData` from `src/src/types/booth.ts`. -/
structure AreaData where
  areaId : String
  areaName : String
  booths : List Booth
deriving DecidableEq, Repr

/-- The energy-area membership test of `loadAreaDataFromSheets`
(useAreaData.ts line 34). -/
def isEnergyAreaId (areaId : String) : Bool :=
  ["Hall_B_2", "Hall_C", "Hall_E_3", "all_in_one"].contains areaId

/-- The booth filter applied for every energy area (useAreaData.ts lines
41-45): keep ids starting with `B-`, `C-`, or `E-`. -/
def energyPrefixFilter (b : Booth) : Bool :=
  jsStartsWith b.id "B-" || jsStartsWith b.id "C-" || jsStartsWith b.id "E-"

/-- The booth-list selection of `loadAreaDataFromSheets` (useAreaData.ts
lines 34-51): energy areas (including each individual hall) get the
combined `B-`/`C-`/`E-` filter over all fetched booths; any other area
gets all fetched booths. -/
def filteredBoothsFor (areaId : String) (allBooths : List Booth) :
    List Booth :=
  if isEnergyAreaId areaId then allBooths.filter energyPrefixFilter
  else allBooths

/-- The `areaName` switch of `loadAreaDataFromSheets` (useAreaData.ts
lines 53-71). -/
def areaNameFor (areaId : String) : String :=
  if areaId = "all_in_one" then "Exhibition OTD Energy"
  else if areaId = "Hall_C" then "Exhibition Hall C"
  else if areaId = "Hall_B_2" then "Exhibition Hall B"
  else if areaId = "Hall_E_3" then "Exhibition Hall E"
  else if areaId = "MainExhibitionHall" then "Main Exhibition Hall"
  else "Exhibition Area"

/-- The `AreaData` value `loadAreaDataFromSheets` builds (useAreaData.ts
lines 78-83) from the fetched booth-map values. -/
def buildAreaData (areaId : String) (fetchedBooths : List Booth) : AreaData :=
  { areaId := areaId,
    areaName := areaNameFor areaId,
    booths := filteredBoothsFor areaId fetchedBooths }

/-- The booth fields serialized into the content hash (useAreaData.ts
lines 89-97). -/
structure BoothHashFields where
  id : String
  name : String
  status : BoothStatus
  color : String
  width : ℚ
  height : ℚ
  area : ℚ
deriving DecidableEq, Repr

/-- Projection of a booth onto its hashed fields (useAreaData.ts lines
89-97). -/
def boothHashFields (b : Booth) : BoothHashFields :=
  { id := b.id, name := b.name, status := b.status, color := b.color,
    width := b.width, height := b.height, area := b.area }

/-- The content serialized by `JSON.stringify` for the hash (useAreaData.ts
lines 86-98). `JSON.stringify` on this fixed shape is deterministic, and
the hook only ever compares hash strings for equality, so the hash is
modelled by the serialized content itself. -/
structure DataHash where
  areaId : String
  areaName : String
  booths : List BoothHashFields
deriving DecidableEq, Repr

/-- The content hash of an `AreaData` (useAreaData.ts lines 86-98). -/
def dataHashOf (a : AreaData) : DataHash :=
  { areaId := a.areaId, areaName := a.areaName,
    booths := a.booths.map boothHashFields }

/-- The hook state the fetch-merge step touches: the stored hash
(`lastDataHashRef`), the published data (`data`), and the number of
`setData` calls performed, to make "no state update" observable. -/
structure HookState where
  lastDataHash : Option DataHash
  data : Option AreaData
  setDataCount : Nat
deriving DecidableEq, Repr

/-- The state transition of `loadAreaDataFromSheets` (useAreaData.ts lines
21-116) on a successful fetch: build the `AreaData`, hash it, and call
`setData` (recording the new hash) only when the hash differs from the
stored one. -/
def loadAreaDataFromSheets (st : HookState) (areaId : String)
    (fetchedBooths : List Booth) : HookState :=
  let areaData := buildAreaData areaId fetchedBooths
  let dataHash := dataHashOf areaData
  if some dataHash ≠ st.lastDataHash then
    { lastDataHash := some dataHash, data := some areaData,
      setDataCount := st.setDataCount + 1 }
  else st

/-! ## Camera easing (`src/src/utils/cameraUtils.ts`) -/

/-- A THREE.js vector, as used for camera position and look-at target. -/
structure Vec3 where
  x : ℚ
  y : ℚ
  z : ℚ
deriving DecidableEq, Repr

/-- `animationProgress = Math.min(elapsed / duration, 1)`
(cameraUtils.ts line 83); with nonnegative elapsed time this clamps to
the unit interval. -/
def animationProgress (elapsed duration : ℚ) : ℚ :=
  min (elapsed / duration) 1

/-- `eased = 1 - Math.pow(1 - animationProgress, 3)` (cameraUtils.ts
line 86): cubic ease-out. -/
def easedProgress (t : ℚ) : ℚ := 1 - (1 - t) ^ 3

/-- `THREE.Vector3.lerpVectors(a, b, e)`: `a + (b - a) * e`
component-wise. -/
def lerpVectors (a b : Vec3) (e : ℚ) : Vec3 :=
  ⟨a.x + (b.x - a.x) * e, a.y + (b.y - a.y) * e, a.z + (b.z - a.z) * e⟩

/-- One frame of `CameraAnimator.animateCameraToPosition` (cameraUtils.ts
lines 81-98): the camera position and the controls target, both
interpolated with the same eased parameter. -/
def cameraFrame (startPos targetPos startTarget targetLookAt : Vec3)
    (elapsed duration : ℚ) : Vec3 × Vec3 :=
  let t := animationProgress elapsed duration
  let eased := easedProgress t
  (lerpVectors startPos targetPos eased,
   lerpVectors startTarget targetLookAt eased)

/-! ## Info-callout toggle (`src/unnamed/part_003`, lines 1826-1847 and
2062-2096) -/

/-- The click-relevant scene state: `lastClickedBoothRef.current`
(modelled by the booth id) and the visible info callouts (`calloutsRef`),
each remembered by the booth id it was created for. -/
structure CalloutState where
  lastClickedBooth : Option String
  callouts : List String
deriving DecidableEq, Repr

/-- What a click hit: empty space, an interactive mesh with booth data, or
an interactive mesh without booth data. -/
inductive ClickTarget where
  | emptySpace
  | boothMesh (boothId : String)
  | meshWithoutData
deriving DecidableEq, Repr

/-- `showBoothInfoCallout` (part_003 lines 1826-1847): clear the existing
info callouts, then create and add one callout for the clicked booth. -/
def showBoothInfoCallout (st : CalloutState) (boothId : String) :
    CalloutState :=
  { st with callouts := [boothId] }

/-- `onClick` (part_003 lines 2062-2096): empty space clears the info
callouts and resets the last-clicked booth; a second click on the booth
whose callout is showing toggles it off; any other booth click shows that
booth's callout and records it as last clicked. A mesh without booth data
changes nothing. -/
def onClick (st : CalloutState) (target : ClickTarget) : CalloutState :=
  match target with
  | ClickTarget.emptySpace => { lastClickedBooth := none, callouts := [] }
  | ClickTarget.meshWithoutData => st
  | ClickTarget.boothMesh boothId =>
    let isSameBooth := st.lastClickedBooth = some boothId
    if isSameBooth ∧ st.callouts ≠ [] then
      { lastClickedBooth := none, callouts := [] }
    else
      { showBoothInfoCallout st boothId with
        lastClickedBooth := some boothId }

/-! ## Demo data used by witnesses and counterexamples -/

/-- A concrete booth with id `B-100`, as the mesh-matching scenario uses. -/
def demoBoothB100 : Booth :=
  { id := "B-100", name := "Acme", width := 3, height := 2, area := 6,
    status := BoothStatus.sold, color := "#66aaff" }

/-- A concrete fetched booth list containing one `B-` and one `C-` booth,
as both appear in the energy sheet. -/
def demoEnergyBooths : List Booth :=
  [{ id := "B-1", name := "Acme", width := 3, height := 2, area := 6,
     status := BoothStatus.sold, color := "#66aaff" },
   { id := "C-7", name := "Globex", width := 4, height := 2, area := 8,
     status := BoothStatus.available, color := "#cccccc" }]

/-- A concrete mesh state whose material has a color property. -/
def demoMesh : MeshState :=
  { material :=
      { color := ⟨1, 0, 0⟩, emissive := ⟨0, 0, 0⟩,
        emissiveIntensity := 0, hasColor := true },
    hoverColor := none }

/-! ## Theorems -/

/-- C10: for every input whose lowercased form is neither `sold` nor
`reserved` nor `available`, `normalizeStatus` returns `available`, and
`normalizeStatus` never returns `nil` for any input. -/
theorem normalizeStatus_defaults_to_available (s : String)
    (hs : jsToLower s ≠ "sold") (hr : jsToLower s ≠ "reserved")
    (_ha : jsToLower s ≠ "available") :
    normalizeStatus s = BoothStatus.available ∧
      ∀ t : String, normalizeStatus t ≠ BoothStatus.nil := by
  constructor
  · simp only [normalizeStatus]
    rw [if_neg hs, if_neg hr]
  · intro t
    simp only [normalizeStatus]
    split_ifs <;> decide

/-- Witness for C10 at the input `"nil"` itself. -/
theorem normalizeStatus_defaults_to_available_witness :
    normalizeStatus "nil" = BoothStatus.available ∧
      ∀ t : String, normalizeStatus t ≠ BoothStatus.nil :=
  normalizeStatus_defaults_to_available "nil" (by decide) (by decide)
    (by decide)

/-- C3 counterexample: the mesh-material colorer assigns status `nil` the
same color as status `available` (both `0x0430A9`), refuting the claim
that every display mapping separates them. -/
theorem getStatusColor_nil_eq_available :
    MaterialManager.getStatusColor "nil" =
      MaterialManager.getStatusColor "available" := by decide

/-- C3 (amended): the `Booth.color` lookup `getColorForStatus` assigns
`nil` the pink sentinel, distinct from `available`'s gray, but the
mesh-material colorer `getStatusColor` assigns `nil` and `available` the
same blue `0x0430A9`. -/
theorem statusColor_mappings :
    getColorForStatus BoothStatus.nil = "#ff69b4" ∧
    getColorForStatus BoothStatus.available = "#cccccc" ∧
    getColorForStatus BoothStatus.nil ≠
      getColorForStatus BoothStatus.available ∧
    MaterialManager.getStatusColor "nil" = 0x0430A9 ∧
    MaterialManager.getStatusColor "available" = 0x0430A9 := by decide

/-- C1: evaluating the booth feed at rows whose status cell is the empty
string or only whitespace. The `|| 'Available'` default fires before the
`isEmptyStatus` check, so the booths come out as `available`/gray, not as
the `nil`/pink sentinel the spec's scenario requires. -/
theorem emptyStatusRow_yields_available :
    fetchBoothInfoFromSheets (FetchOutcome.rowsOk
      [{ id := some "B-1", status := some "", name := some "Acme",
         width := none, lenght := none, area := none },
       { id := some "B-2", status := some "   ", name := some "Globex",
         width := none, lenght := none, area := none }]) =
      Except.ok
        [("B-1", { id := "B-1", name := "Acme", width := 0, height := 0,
                   area := 0, status := BoothStatus.available,
                   color := "#cccccc" }),
         ("B-2", { id := "B-2", name := "Globex", width := 0, height := 0,
                   area := 0, status := BoothStatus.available,
                   color := "#cccccc" })] ∧
    getColorForStatus BoothStatus.available ≠
      getColorForStatus BoothStatus.nil :=
  ⟨rfl, by decide⟩

/-- C9: the booth feed never propagates an exception (the promise always
resolves with a map), every failure mode resolves to the empty map, and a
call consumes exactly the first pending request outcome, independent of
any later ones (no retry). -/
theorem fetchBoothInfo_silent_degrade :
    (∀ o : FetchOutcome, ∃ m, fetchBoothInfoFromSheets o = Except.ok m) ∧
    (∀ o : FetchOutcome, o.isFailure = true →
      fetchBoothInfoFromSheets o = Except.ok []) ∧
    (∀ (o : FetchOutcome) (rest : List FetchOutcome),
      fetchBoothInfoFromStream (o :: rest) = fetchBoothInfoFromSheets o) := by
  refine ⟨?_, ?_, ?_⟩
  · intro o
    cases o <;> exact ⟨_, rfl⟩
  · intro o ho
    cases o with
    | networkError m => rfl
    | httpNotOk s => rfl
    | parseError m => rfl
    | rowsOk rows => simp [FetchOutcome.isFailure] at ho
  · intro o rest
    rfl

/-- Witness for C9 at a concrete non-ok HTTP response. -/
theorem fetchBoothInfo_silent_degrade_witness :
    fetchBoothInfoFromSheets (FetchOutcome.httpNotOk "Bad Gateway") =
      Except.ok [] :=
  fetchBoothInfo_silent_degrade.2.1
    (FetchOutcome.httpNotOk "Bad Gateway") (by decide)

/-- C2 counterexample: for the individual hall `Hall_B_2` the published
booth list keeps a `C-` booth, refuting the per-hall-prefix claim. -/
theorem hallB2_keeps_foreign_prefix :
    ((buildAreaData "Hall_B_2" demoEnergyBooths).booths.all
      (fun b => jsStartsWith b.id "B-")) = false := by decide

/-- C2 (amended): every energy area — the individual halls `Hall_B_2`,
`Hall_C`, `Hall_E_3` just like the `all_in_one` overview — publishes the
same combined list, namely all fetched booths whose id starts with `B-`,
`C-`, or `E-`; the halls are not restricted to their own prefix. -/
theorem energyAreas_publish_combined (bs : List Booth) :
    (buildAreaData "Hall_B_2" bs).booths = bs.filter energyPrefixFilter ∧
    (buildAreaData "Hall_C" bs).booths = bs.filter energyPrefixFilter ∧
    (buildAreaData "Hall_E_3" bs).booths = bs.filter energyPrefixFilter ∧
    (buildAreaData "all_in_one" bs).booths = bs.filter energyPrefixFilter := by
  refine ⟨?_, ?_, ?_, ?_⟩ <;> rfl

/-- Mapping a projection through a filter that only inspects the
projection commutes with filtering the projected list. -/
theorem filter_map_proj {α β : Type} (f : α → β) (r : β → Bool) :
    ∀ l : List α,
      (l.filter (fun a => r (f a))).map f = (l.map f).filter r := by
  intro l
  induction l with
  | nil => rfl
  | cons a l ih =>
    by_cases h : r (f a) = true
    · simp [List.filter_cons, List.map_cons, h, ih]
    · simp [List.filter_cons, List.map_cons, h, ih]

/-- The hash-relevant projection of the energy filter: it only inspects
the booth id, which survives `boothHashFields`. -/
def energyPrefixFilterH (h : BoothHashFields) : Bool :=
  jsStartsWith h.id "B-" || jsStartsWith h.id "C-" || jsStartsWith h.id "E-"

/-- Two fetched booth lists with equal hash projections produce equal
content hashes for any area. -/
theorem dataHash_congr (areaId : String) {bs1 bs2 : List Booth}
    (h : bs1.map boothHashFields = bs2.map boothHashFields) :
    dataHashOf (buildAreaData areaId bs1) =
      dataHashOf (buildAreaData areaId bs2) := by
  have key : ∀ bs : List Booth,
      (filteredBoothsFor areaId bs).map boothHashFields =
        if isEnergyAreaId areaId then
          (bs.map boothHashFields).filter energyPrefixFilterH
        else bs.map boothHashFields := by
    intro bs
    by_cases he : isEnergyAreaId areaId = true
    · rw [if_pos he]
      unfold filteredBoothsFor
      rw [if_pos he]
      exact filter_map_proj boothHashFields energyPrefixFilterH bs
    · rw [if_neg he]
      unfold filteredBoothsFor
      rw [if_neg he]
  simp only [dataHashOf, buildAreaData]
  rw [DataHash.mk.injEq]
  refine ⟨rfl, rfl, ?_⟩
  rw [key bs1, key bs2, h]

/-- C4: running the fetch-merge step a second time on booth data whose
hash-relevant content is identical to the first run's leaves the hook
state untouched — no `setData` call, same published `AreaData`, same
stored hash. -/
theorem loadAreaData_no_update_on_same_content (st : HookState)
    (areaId : String) (bs1 bs2 : List Booth)
    (h : bs1.map boothHashFields = bs2.map boothHashFields) :
    loadAreaDataFromSheets (loadAreaDataFromSheets st areaId bs1) areaId bs2 =
      loadAreaDataFromSheets st areaId bs1 := by
  have hh : dataHashOf (buildAreaData areaId bs2) =
      dataHashOf (buildAreaData areaId bs1) :=
    (dataHash_congr areaId h).symm
  by_cases hc :
      some (dataHashOf (buildAreaData areaId bs1)) ≠ st.lastDataHash
  · simp [loadAreaDataFromSheets, hh, hc]
  · simp [loadAreaDataFromSheets, hh, hc]

/-- Witness for C4: two identical fetches for `Hall_C` starting from the
initial hook state. -/
theorem loadAreaData_no_update_on_same_content_witness :
    loadAreaDataFromSheets
        (loadAreaDataFromSheets ⟨none, none, 0⟩ "Hall_C" demoEnergyBooths)
        "Hall_C" demoEnergyBooths =
      loadAreaDataFromSheets ⟨none, none, 0⟩ "Hall_C" demoEnergyBooths :=
  loadAreaData_no_update_on_same_content ⟨none, none, 0⟩ "Hall_C"
    demoEnergyBooths demoEnergyBooths rfl

/-- C5: booth-to-mesh matching takes the exact name-pattern candidates,
in order, before the substring fallback, which runs only when no exact
pattern matched; in the two-mesh scene with `BOOTHLAYER_curve_.B-100` and
`b-100-extra`, booth `B-100` is mapped to the exactly named mesh. -/
theorem meshMatching_exact_precedence :
    (∀ (scene : List Mesh) (boothId : String) (m : Mesh),
      MeshManager.findFirstExact scene
          (MeshManager.generateMeshNamePatterns boothId) = some m →
      MeshManager.findMeshForBooth scene boothId = some m) ∧
    (∀ (scene : List Mesh) (boothId : String),
      MeshManager.findFirstExact scene
          (MeshManager.generateMeshNamePatterns boothId) = none →
      MeshManager.findMeshForBooth scene boothId =
        MeshManager.findMeshByPartialMatch scene boothId) ∧
    MeshManager.mapBoothMeshes
        [⟨0, "BOOTHLAYER_curve_.B-100"⟩, ⟨1, "b-100-extra"⟩]
        [demoBoothB100] =
      [(⟨0, "BOOTHLAYER_curve_.B-100"⟩, demoBoothB100)] := by
  refine ⟨?_, ?_, ?_⟩
  · intro scene boothId m hex
    unfold MeshManager.findMeshForBooth
    rw [hex]
  · intro scene boothId hex
    unfold MeshManager.findMeshForBooth
    rw [hex]
  · decide

/-- Witness for C5: the precedence branch applied at the two-mesh demo
scene. -/
theorem meshMatching_exact_precedence_witness :
    MeshManager.findMeshForBooth
        [⟨0, "BOOTHLAYER_curve_.B-100"⟩, ⟨1, "b-100-extra"⟩] "B-100" =
      some ⟨0, "BOOTHLAYER_curve_.B-100"⟩ :=
  meshMatching_exact_precedence.1
    [⟨0, "BOOTHLAYER_curve_.B-100"⟩, ⟨1, "b-100-extra"⟩] "B-100"
    ⟨0, "BOOTHLAYER_curve_.B-100"⟩ (by decide)

/-- C6: from any state with no visible info callout, clicking booth `x`
twice leaves zero visible info callouts, while clicking `x` and then a
different booth `y` leaves exactly one visible callout, the one for `y`. -/
theorem clickToggle_semantics (st : CalloutState) (x y : String)
    (hst : st.callouts = []) (hxy : x ≠ y) :
    (onClick (onClick st (ClickTarget.boothMesh x))
        (ClickTarget.boothMesh x)).callouts = [] ∧
    (onClick (onClick st (ClickTarget.boothMesh x))
        (ClickTarget.boothMesh y)).callouts = [y] := by
  have h1 : onClick st (ClickTarget.boothMesh x) =
      { lastClickedBooth := some x, callouts := [x] } := by
    simp [onClick, showBoothInfoCallout, hst]
  rw [h1]
  constructor
  · simp [onClick]
  · simp [onClick, showBoothInfoCallout, hxy]

/-- Witness for C6 with booths `B-100` and `C-200` from the empty
starting state. -/
theorem clickToggle_semantics_witness :
    (onClick (onClick ⟨none, []⟩ (ClickTarget.boothMesh "B-100"))
        (ClickTarget.boothMesh "B-100")).callouts = [] ∧
    (onClick (onClick ⟨none, []⟩ (ClickTarget.boothMesh "B-100"))
        (ClickTarget.boothMesh "C-200")).callouts = ["C-200"] :=
  clickToggle_semantics ⟨none, []⟩ "B-100" "C-200" rfl (by decide)

/-- Interpolating with parameter 0 returns the start vector. -/
theorem lerpVectors_zero (a b : Vec3) : lerpVectors a b 0 = a := by
  cases a
  cases b
  simp only [lerpVectors, Vec3.mk.injEq]
  refine ⟨by ring, by ring, by ring⟩

/-- Interpolating with parameter 1 returns the target vector. -/
theorem lerpVectors_one (a b : Vec3) : lerpVectors a b 1 = b := by
  cases a
  cases b
  simp only [lerpVectors, Vec3.mk.injEq]
  refine ⟨by ring, by ring, by ring⟩

/-- C7: the camera frame starts exactly at the start position and start
target, reaches the target position and look-at exactly once the duration
has elapsed, and the eased cubic parameter is monotone and stays in the
unit interval for the clamped progress, so the camera approaches without
overshoot. -/
theorem cameraEasing_properties :
    (∀ (sp tp sg tl : Vec3) (d : ℚ), 0 < d →
      cameraFrame sp tp sg tl 0 d = (sp, sg)) ∧
    (∀ (sp tp sg tl : Vec3) (e d : ℚ), 0 < d → d ≤ e →
      cameraFrame sp tp sg tl e d = (tp, tl)) ∧
    (∀ t1 t2 : ℚ, t1 ≤ t2 → easedProgress t1 ≤ easedProgress t2) ∧
    (∀ e d : ℚ, 0 < d → 0 ≤ e →
      0 ≤ easedProgress (animationProgress e d) ∧
        easedProgress (animationProgress e d) ≤ 1) := by
  refine ⟨?_, ?_, ?_, ?_⟩
  · intro sp tp sg tl d _hd
    have ht : animationProgress 0 d = 0 := by
      simp [animationProgress, zero_div]
    have he : easedProgress 0 = 0 := by norm_num [easedProgress]
    simp only [cameraFrame, ht, he, lerpVectors_zero]
  · intro sp tp sg tl e d hd hde
    have ht : animationProgress e d = 1 := by
      have h1 : (1 : ℚ) ≤ e / d := (one_le_div hd).mpr hde
      simp [animationProgress, min_eq_right h1]
    have he : easedProgress 1 = 1 := by norm_num [easedProgress]
    simp only [cameraFrame, ht, he, lerpVectors_one]
  · intro t1 t2 h12
    unfold easedProgress
    have hsub : 0 ≤ (1 - t1) - (1 - t2) := by linarith
    have hsq : 0 ≤ (1 - t1) ^ 2 + (1 - t1) * (1 - t2) + (1 - t2) ^ 2 := by
      nlinarith [sq_nonneg ((1 - t1) + (1 - t2)), sq_nonneg (1 - t1),
        sq_nonneg (1 - t2)]
    nlinarith [mul_nonneg hsub hsq]
  · intro e d hd he
    have h0 : 0 ≤ animationProgress e d :=
      le_min (div_nonneg he hd.le) zero_le_one
    have h1 : animationProgress e d ≤ 1 := min_le_right _ 1
    set t := animationProgress e d with hteq
    have hc0 : 0 ≤ 1 - t := by linarith
    have hc1 : 1 - t ≤ 1 := by linarith
    have hp0 : 0 ≤ (1 - t) ^ 3 := pow_nonneg hc0 3
    have hp1 : (1 - t) ^ 3 ≤ 1 := pow_le_one₀ hc0 hc1
    constructor
    · unfold easedProgress
      linarith
    · unfold easedProgress
      linarith

/-- Witness for C7 at concrete vectors and a 1000 ms duration. -/
theorem cameraEasing_properties_witness :
    cameraFrame ⟨0, 0, 0⟩ ⟨1, 2, 3⟩ ⟨4, 5, 6⟩ ⟨7, 8, 9⟩ 0 1000 =
        (⟨0, 0, 0⟩, ⟨4, 5, 6⟩) ∧
    cameraFrame ⟨0, 0, 0⟩ ⟨1, 2, 3⟩ ⟨4, 5, 6⟩ ⟨7, 8, 9⟩ 1000 1000 =
        (⟨1, 2, 3⟩, ⟨7, 8, 9⟩) ∧
    easedProgress (1 / 4) ≤ easedProgress (1 / 2) ∧
    (0 ≤ easedProgress (animationProgress 500 1000) ∧
      easedProgress (animationProgress 500 1000) ≤ 1) :=
  ⟨cameraEasing_properties.1 _ _ _ _ 1000 (by norm_num),
   cameraEasing_properties.2.1 _ _ _ _ 1000 1000 (by norm_num) (by norm_num),
   cameraEasing_properties.2.2.1 (1 / 4) (1 / 2) (by norm_num),
   cameraEasing_properties.2.2.2 500 1000 (by norm_num) (by norm_num)⟩

/-- Clamping a value already in the unit interval is the identity. -/
theorem clamp01_of_unit (q : ℚ) (h0 : 0 ≤ q) (h1 : q ≤ 1) :
    clamp01 q = q := by
  unfold clamp01
  rw [min_eq_right h1, max_eq_right h0]

/-- A channel stored as `k / 255` with `k ≤ 255` reads back as `k`. -/
theorem hexChannel_div255 (k : Nat) (hk : k ≤ 255) :
    hexChannel ((k : ℚ) / 255) = k := by
  have h0 : (0 : ℚ) ≤ (k : ℚ) / 255 := by positivity
  have h1 : (k : ℚ) / 255 ≤ 1 := by
    rw [div_le_one (by norm_num)]
    exact_mod_cast hk
  unfold hexChannel
  rw [clamp01_of_unit _ h0 h1]
  have hmul : (k : ℚ) / 255 * 255 = (k : ℚ) := by
    field_simp
  rw [hmul]
  unfold qRound
  have hfl : ⌊(k : ℚ) + 1 / 2⌋ = (k : ℤ) := by
    rw [Int.floor_eq_iff]
    constructor
    · push_cast
      linarith
    · push_cast
      linarith
  rw [hfl]
  simp

/-- Every channel of `getHex` is at most 255. -/
theorem hexChannel_le (q : ℚ) : hexChannel q ≤ 255 := by
  unfold hexChannel qRound
  have hle : clamp01 q * 255 ≤ 255 := by
    have h1 : clamp01 q ≤ 1 := max_le (by norm_num) (min_le_left 1 q)
    nlinarith
  have hlt : ⌊clamp01 q * 255 + 1 / 2⌋ < 256 := by
    apply Int.floor_lt.mpr
    push_cast
    linarith
  omega

/-- Setting a 24-bit hex and reading it back is the identity. -/
theorem getHex_setHex (n : Nat) (hn : n < 16777216) :
    (Color.setHex n).getHex = n := by
  unfold Color.setHex Color.getHex
  rw [hexChannel_div255 (n / 65536 % 256) (by omega),
    hexChannel_div255 (n / 256 % 256) (by omega),
    hexChannel_div255 (n % 256) (by omega)]
  omega

/-- Reading a color's hex always yields a 24-bit value. -/
theorem getHex_lt (c : Color) : c.getHex < 16777216 := by
  unfold Color.getHex
  have h1 := hexChannel_le c.r
  have h2 := hexChannel_le c.g
  have h3 := hexChannel_le c.b
  omega

/-- C8: for a mesh whose material has a color property, applying the
hover effect and then removing it restores the material: the color hex
equals the hex recorded immediately before the hover effect, the emissive
color is `0x000000`, and the emissive intensity is 0. -/
theorem hoverEffect_restores (mesh : MeshState) (glow : Nat) (i : ℚ)
    (h : mesh.material.hasColor = true) :
    ((MaterialManager.removeHoverEffect
        (MaterialManager.applyHoverEffect mesh glow i)).material.color.getHex
      = mesh.material.color.getHex) ∧
    (MaterialManager.removeHoverEffect
        (MaterialManager.applyHoverEffect mesh glow i)).material.emissive.getHex
      = 0 ∧
    (MaterialManager.removeHoverEffect
        (MaterialManager.applyHoverEffect mesh glow i)).material.emissiveIntensity
      = 0 := by
  simp only [MaterialManager.applyHoverEffect, MaterialManager.removeHoverEffect,
    h, if_true]
  refine ⟨getHex_setHex _ (getHex_lt _), getHex_setHex 0 (by norm_num), trivial⟩

/-- Witness for C8 at a concrete red material and the green glow color. -/
theorem hoverEffect_restores_witness :
    ((MaterialManager.removeHoverEffect
        (MaterialManager.applyHoverEffect demoMesh 0x659C3E
          (3 / 10))).material.color.getHex
      = demoMesh.material.color.getHex) ∧
    (MaterialManager.removeHoverEffect
        (MaterialManager.applyHoverEffect demoMesh 0x659C3E
          (3 / 10))).material.emissive.getHex = 0 ∧
    (MaterialManager.removeHoverEffect
        (MaterialManager.applyHoverEffect demoMesh 0x659C3E
          (3 / 10))).material.emissiveIntensity = 0 :=
  hoverEffect_restores demoMesh 0x659C3E (3 / 10) rfl
